import Mathlib

/-!
A shallow embedding of the httpretty printer/formatting engine (printer.go and
httpretty.go) together with proofs about its body-capture, filtering, formatting,
header-ordering and flush behaviour.

Conventions of the embedding:
* Byte streams are lists of bytes together with an explicit end-of-stream reporting
  convention; Read calls are modelled by explicit state passing.
* Printed output is the list of strings produced by the individual print calls
  (each printf/println call contributes one string, newlines included).
* User-supplied callables (Filter, body filter, Formatter.Match, Formatter.Format)
  return a `CallResult`, whose `panicked` constructor models a Go panic recovered
  by the printer's safe wrappers.
* Functions definitely belonging to this repository but whose file is not under the
  source tree (newBodyReaderBuf, getBodyFilter, internal/header.Sanitize, the
  response recorder) are modelled from the spec; their doc comments say so.
-/

namespace Httpretty

/-- HTTP headers: an association list from header name to the list of values for that
name (models Go http.Header, a map from canonical names to value slices). -/
abbrev Headers := List (String × List String)

/-- http.Header.Get: the first value associated with the key, or the empty string. -/
def headerGet (h : Headers) (key : String) : String :=
  match h.find? (fun kv => kv.1 == key) with
  | some kv => kv.2.headD ""
  | none => ""

/-- Go map access h[key] as used by printer.printHeaders: all values for a key. -/
def headerValues (h : Headers) (key : String) : List String :=
  match h.find? (fun kv => kv.1 == key) with
  | some kv => kv.2
  | none => []

/-- SGR attribute codes (internal/color.Attribute). -/
abbrev Attribute := Nat

/-- internal/color.Bold -/
def Bold : Attribute := 1
/-- internal/color.FgRed -/
def FgRed : Attribute := 31
/-- internal/color.FgYellow -/
def FgYellow : Attribute := 33
/-- internal/color.FgBlue -/
def FgBlue : Attribute := 34

/-- internal/color.sequence: the SGR parameter list, ";"-joined. -/
def colorSequence (params : List Attribute) : String :=
  String.intercalate ";" (params.map toString)

/-- internal/color.wrap: wraps s in an SGR escape sequence ending with a reset. -/
def colorWrap (params : List Attribute) (s : String) : String :=
  "\x1b[" ++ colorSequence params ++ "m" ++ s ++ "\x1b[0m"

/-- printer.format: color.Format when the Colors flag is set, color.StripAttributes
(text with the attribute arguments dropped) otherwise. The sprintf-style argument
packs of the call sites are assembled by the callers in this embedding. -/
def pfmt (colors : Bool) (attrs : List Attribute) (s : String) : String :=
  if colors then colorWrap attrs s else s

/-- Result of invoking a user-supplied callable: a normal return, or a panic that the
printer's safe wrappers recover. -/
inductive CallResult (α : Type) where
  | ok (val : α)
  | panicked (msg : String)
deriving DecidableEq

/-- httpretty.Formatter: Match receives the mediatype parsed from Content-Type; Format
receives the body bytes and produces formatted bytes or an error. Either may panic. -/
structure Formatter where
  Match : String → CallResult Bool
  Format : List Nat → CallResult (Except String (List Nat))

/-- A body stream (io.ReadCloser) as consumed by the printer: the bytes it will still
yield, plus its end-of-stream reporting convention. A Read with capacity c returns
min(c, available) bytes; an `eager` stream reports io.EOF together with the final bytes
(as the net/http chunked body can), while a non-eager stream (bytes.Reader,
strings.Reader, fixed-length http bodies) returns a nil error alongside the data and
reports io.EOF only on a later call. -/
structure ByteStream where
  data : List Nat
  eager : Bool
deriving DecidableEq

/-- One Read on the underlying stream with capacity c: the bytes delivered, whether
io.EOF was reported by this call, and the stream afterwards. -/
def streamRead (s : ByteStream) (c : Nat) : List Nat × Bool × ByteStream :=
  (s.data.take c,
   s.data.isEmpty || (s.eager && (s.data.drop c).isEmpty),
   ⟨s.data.drop c, s.eager⟩)

/-- printer.maxDefaultUnknownReadable -/
def maxDefaultUnknownReadable : Nat := 4096

/-- The default buffer size of bufio.NewReader. -/
def bufioDefaultBufSize : Nat := 4096

/-- The single shortReader.Read(pb) that printBodyUnknownLength performs on a fresh
bufio.Reader wrapping r (bufio.Reader.Read): when len(pb) is at least the bufio buffer
size, the read goes directly to the underlying stream and its error is passed through;
otherwise one fill of the 4096-byte internal buffer is performed and at most len(pb)
bytes are copied out of it, with a nil error whenever bytes were delivered. Bytes left
in the internal buffer are abandoned when the bufio.Reader goes out of scope, so they
are no longer part of the underlying stream state returned here. -/
def bufioRead (r : ByteStream) (c : Nat) : List Nat × Bool × ByteStream :=
  if bufioDefaultBufSize ≤ c then streamRead r c
  else
    let fill := streamRead r bufioDefaultBufSize
    if fill.1.isEmpty then ([], fill.2.1, fill.2.2)
    else (fill.1.take c, false, fill.2.2)

/-- Go string(b) conversion for printed byte slices (bodies are byte lists; printing
converts them to text). -/
def bytesToString (bs : List Nat) : String :=
  String.mk (bs.map (fun b => Char.ofNat b))

/-- Models mime.ParseMediaType (standard-library collaborator): the media type is the
part of the Content-Type value before any parameter, trimmed and lowercased. -/
def parseMediaType (contentType : String) : String :=
  (((contentType.splitOn ";").headD "").trim).toLower

/-- printer.safeBodyMatch: runs f.Match; a panic is recovered, printing one diagnostic
line, and the zero value false is returned. Result: (printed lines, match result). -/
def safeBodyMatch (f : Formatter) (mediatype : String) : List String × Bool :=
  match f.Match mediatype with
  | .ok b => ([], b)
  | .panicked e => (["* panic while testing body format: " ++ e ++ "\n"], false)

/-- printer.safeBodyFormat: runs f.Format; a panic is recovered and converted into an
error value. -/
def safeBodyFormat (f : Formatter) (src : List Nat) : Except String (List Nat) :=
  match f.Format src with
  | .ok r => r
  | .panicked e => .error ("panic: " ++ e)

/-- The formatter loop of printer.printBodyReader: the first formatter whose Match
returns true formats the body (a Format failure prints the raw body after a diagnostic
and stops); when no formatter matches, the raw body is printed. -/
def runFormatters (colors : Bool) (mediatype : String) (body : List Nat) :
    List Formatter → List String
  | [] => [bytesToString body ++ "\n"]
  | f :: fs =>
    let m := safeBodyMatch f mediatype
    if m.2 then
      match safeBodyFormat f body with
      | .error e =>
          m.1 ++ ["* body cannot be formatted: " ++ pfmt colors [FgRed] e ++ "\n" ++
                  bytesToString body ++ "\n"]
      | .ok formatted => m.1 ++ [bytesToString formatted ++ "\n"]
    else
      m.1 ++ runFormatters colors mediatype body fs

/-- printer.printBodyReader: reads the whole reader into memory (the in-memory readers
and model streams used here never produce a read error), then runs the formatter
chain. -/
def printBodyReader (colors : Bool) (formatters : List Formatter)
    (contentType : String) (body : List Nat) : List String :=
  runFormatters colors (parseMediaType contentType) body formatters

/-- The diagnostic line printBodyUnknownLength prints when the single bounded read
does not report io.EOF (n is the number of bytes that read returned). -/
def tooLongUnknownLine (n : Nat) : String :=
  "* body is too long, skipping (contains more than " ++ toString n ++ " bytes)\n"

/-- Result of printer.printBodyUnknownLength: the printed lines, the replacement body
(the captured bytes paired with the original stream they are concatenated with by
newBodyReaderBuf), and the state the original stream was left in. -/
structure UnknownLengthResult where
  out : List String
  newBody : Option (List Nat × ByteStream)
  rest : ByteStream
deriving DecidableEq

/-- printer.printBodyUnknownLength. A negative maxLength would make the Go code panic
at make([]byte, maxLength); callers only pass 0 or positive ceilings. -/
def printBodyUnknownLength (colors : Bool) (formatters : List Formatter)
    (contentType : String) (maxLength : Int) (r : ByteStream) : UnknownLengthResult :=
  let mL : Nat := (if maxLength = 0 then (maxDefaultUnknownReadable : Int) else maxLength).toNat
  let rd := bufioRead r mL
  let pb := rd.1
  let eof := rd.2.1
  let rest := rd.2.2
  if pb.length = 0 && eof then ⟨[], none, rest⟩
  else if !eof then
    ⟨[tooLongUnknownLine pb.length], some (pb, rest), rest⟩
  else
    ⟨printBodyReader colors formatters contentType pb, some (pb, rest), rest⟩

/-- Modelled from the spec: newBodyReaderBuf (its file is not under the source tree;
printer.go only calls it) builds the replacement body that "yields the captured bytes
followed by the original stream's remaining bytes": reading it first drains buf and
then continues with the underlying stream. -/
def newBodyReaderBuf (buf : List Nat) (body : ByteStream) : List Nat :=
  buf ++ body.data

/-- crypto/x509 certificate fields consumed by printCertificate; hostname verification
is an oracle standing for the collaborator x509.Certificate.VerifyHostname (none means
verification succeeded, some e is the error text). -/
structure Certificate where
  subject : String
  notBefore : String
  notAfter : String
  issuer : String
  verifyHostnameErr : String → Option String

/-- tls.ConnectionState fields consumed by the printer. -/
structure TLSState where
  version : Nat
  cipherSuite : Nat
  negotiatedProtocol : String
  verifiedChains : Option (List (List Certificate))
  peerCertificates : List Certificate

/-- http.Request fields consumed by the printer and adapters. `hide` models
req.Context().Value(contextHide) being set (httpretty.WithHide); urlString is
req.URL.String(), urlHost is req.URL.Host, requestURI is req.URL.RequestURI(). -/
structure Request where
  hide : Bool := false
  method : String := "GET"
  urlString : String := ""
  urlHost : String := ""
  requestURI : String := "/"
  proto : String := "HTTP/1.1"
  host : String := ""
  remoteAddr : String := ""
  tls : Option TLSState := none
  header : Headers := []
  contentLength : Int := 0
  body : Option ByteStream := none

/-- http.Response fields consumed by the printer. requestMethod is
resp.Request.Method when resp.Request is non-nil. -/
structure Response where
  proto : String := "HTTP/1.1"
  status : String := "200 OK"
  header : Headers := []
  contentLength : Int := 0
  body : Option ByteStream := none
  tls : Option TLSState := none
  requestMethod : Option String := none

/-- httpretty.Filter (may panic; printer.safeFilter recovers). -/
abbrev Filter := Request → CallResult (Bool × Option String)

/-- The body filter predicate: a function over the headers returning (skip, err). Its
type declaration and the Logger field holding it are in a file missing from the source
tree (printer.go calls getBodyFilter); modelled from the spec. -/
abbrev BodyFilter := Headers → CallResult (Bool × Option String)

/-- httpretty.Flusher. -/
inductive Flusher where
  | NoBuffer
  | OnReady
  | OnEnd
deriving DecidableEq

/-- The httpretty.Logger: configuration flags plus the mutex-protected mutable fields
(filter, flusher; the output writer is carried by the printer state in this embedding).
The bodyFilter field and its getter are in a file missing from the source tree
(printer.go calls getBodyFilter); the field is modelled from the spec. -/
structure Logger where
  SkipRequestInfo : Bool := false
  Time : Bool := false
  TLS : Bool := false
  RequestHeader : Bool := false
  RequestBody : Bool := false
  ResponseHeader : Bool := false
  ResponseBody : Bool := false
  SkipSanitize : Bool := false
  Colors : Bool := false
  Formatters : List Formatter := []
  MaxRequestBody : Int := 0
  MaxResponseBody : Int := 0
  filter : Option Filter := none
  bodyFilter : Option BodyFilter := none
  flusher : Flusher := .NoBuffer

/-- printer.safeFilter: runs the filter, recovering a panic into an error; at the time
of a panic the named results still hold their zero values, so skip is false. -/
def safeFilter (filter : Filter) (req : Request) : Bool × Option String :=
  match filter req with
  | .ok r => r
  | .panicked e => (false, some ("panic: " ++ e))

/-- The diagnostic line checkFilter prints when the filter faults (an error return or
a recovered panic): it names the request (method and URL) and the fault. -/
def cannotFilterRequestLine (colors : Bool) (req : Request) (e : String) : String :=
  "* cannot filter request: " ++ pfmt colors [FgBlue] (req.method ++ " " ++ req.urlString) ++
    ": " ++ pfmt colors [FgRed] e ++ "\n"

/-- printer.checkFilter: reads the Logger's current filter (Logger.getFilter) and
decides whether to skip the request. A nil request prints an error line and is
skipped; a filter error or panic prints one diagnostic line naming the request and the
fault and the request is never skipped. Returns (printed lines, skip). -/
def checkFilter (cur : Logger) (req : Option Request) : List String × Bool :=
  match req with
  | none => (["> " ++ pfmt cur.Colors [FgRed] "error: null request" ++ "\n"], true)
  | some req =>
    match cur.filter with
    | none => ([], false)
    | some filter =>
      let r := safeFilter filter req
      match r.2 with
      | some e => ([cannotFilterRequestLine cur.Colors req e], false)
      | none => ([], r.1)

/-- printer.checkBodyFiltered: runs the Logger's body filter if any; a panic inside it
prints a diagnostic line and leaves the zero results (skip false, err nil).
Returns (printed lines, (skip, err)). -/
def checkBodyFiltered (cur : Logger) (h : Headers) : List String × Bool × Option String :=
  match cur.bodyFilter with
  | none => ([], false, none)
  | some f =>
    match f h with
    | .ok r => ([], r.1, r.2)
    | .panicked e => (["* panic while filtering body: " ++ e ++ "\n"], false, none)

/-- Observable outcome of one body-capture pass (printRequestBody or
printResponseBodyOut): the lines it printed, the number of bytes it drew from the
original stream, and the bytes the downstream consumer can still read afterwards
(through the replacement body when one was installed, through the original stream
otherwise). -/
structure BodyPassResult where
  out : List String
  consumed : Nat
  visible : List Nat
deriving DecidableEq

/-- The diagnostic line for a declared body length above the ceiling (shared by
printRequestBody, printResponseBodyOut and printServerResponse). -/
def tooLongKnownLine (n maxL : Int) : String :=
  "* body is too long (" ++ toString n ++ " bytes) to print, skipping (longer than " ++
    toString maxL ++ " bytes)\n"

/-- printer.printResponseBodyOut. resp.Body is non-nil when this is reached
(printResponse guards it); a none body is treated as the empty untouched stream. -/
def printResponseBodyOut (cur : Logger) (resp : Response) : BodyPassResult :=
  let b := resp.body.getD ⟨[], false⟩
  if resp.contentLength = 0 then ⟨[], 0, b.data⟩
  else
    let bf := checkBodyFiltered cur resp.header
    let bfOut := bf.1 ++
      (match bf.2.2 with
       | some e =>
         ["* " ++ pfmt cur.Colors [FgRed] ("error on response body filter: " ++ e) ++ "\n"]
       | none => [])
    if bf.2.1 then ⟨bfOut, 0, b.data⟩
    else if 0 < cur.MaxResponseBody ∧ cur.MaxResponseBody < resp.contentLength then
      ⟨bfOut ++ [tooLongKnownLine resp.contentLength cur.MaxResponseBody], 0, b.data⟩
    else
      let contentType := headerGet resp.header "Content-Type"
      if resp.contentLength = -1 then
        let u := printBodyUnknownLength cur.Colors cur.Formatters contentType
          cur.MaxResponseBody b
        ⟨bfOut ++ u.out, b.data.length - u.rest.data.length,
         match u.newBody with
         | some nb => newBodyReaderBuf nb.1 nb.2
         | none => u.rest.data⟩
      else
        ⟨bfOut ++ printBodyReader cur.Colors cur.Formatters contentType b.data,
         b.data.length, b.data⟩

/-- printer.printRequestBody. -/
def printRequestBody (cur : Logger) (req : Request) : BodyPassResult :=
  match req.body with
  | none => ⟨[], 0, []⟩
  | some b =>
    let bf := checkBodyFiltered cur req.header
    let bfOut := bf.1 ++
      (match bf.2.2 with
       | some e =>
         ["* " ++ pfmt cur.Colors [FgRed] ("error on request body filter: " ++ e) ++ "\n"]
       | none => [])
    if bf.2.1 then ⟨bfOut, 0, b.data⟩
    else if 0 < cur.MaxRequestBody ∧ cur.MaxRequestBody < req.contentLength then
      ⟨bfOut ++ [tooLongKnownLine req.contentLength cur.MaxRequestBody], 0, b.data⟩
    else
      let contentType := headerGet req.header "Content-Type"
      if 0 < req.contentLength then
        ⟨bfOut ++ printBodyReader cur.Colors cur.Formatters contentType b.data,
         b.data.length, b.data⟩
      else
        let u := printBodyUnknownLength cur.Colors cur.Formatters contentType
          cur.MaxRequestBody b
        ⟨bfOut ++ u.out, b.data.length - u.rest.data.length,
         match u.newBody with
         | some nb => newBodyReaderBuf nb.1 nb.2
         | none => u.rest.data⟩

/-- The fixed-width mask token the sanitizer substitutes for credential values. -/
def maskToken : String := "████████████████████"

/-- Modelled from the spec: the default header-sanitization rule table
(internal/header.DefaultSanitizers; its file is not under the source tree, only its
tests are): the names of credential-bearing headers. -/
def DefaultSanitizers : List String :=
  ["Authorization", "Proxy-Authorization", "Cookie", "Set-Cookie"]

/-- Modelled from the spec: internal/header.Sanitize (its file is not under the source
tree): returns a copy of the header mapping in which values of credential-bearing
headers are replaced by the fixed-width mask token; other headers pass through
unchanged, and no key is added or removed. -/
def Sanitize (rules : List String) (h : Headers) : Headers :=
  h.map (fun kv => if rules.contains kv.1 then (kv.1, kv.2.map (fun _ => maskToken)) else kv)

/-- printer.sortHeaderKeys: the header names sorted ascending (sort.Strings is a
lexicographic sort of the raw key strings; byte-wise UTF-8 order coincides with the
code-point order of String ≤ used here). Go extracts the keys in arbitrary map order
and then sorts; the sort result is the same list regardless of extraction order. -/
def sortHeaderKeys (h : Headers) : List String :=
  List.insertionSort (fun a b => a ≤ b) (h.map Prod.fst)

/-- One rendered header line (the printf of printer.printHeaders). -/
def headerLine (colors : Bool) (mark : Char) (key value : String) : String :=
  mark.toString ++ " " ++ pfmt colors [FgBlue, Bold] key ++
    pfmt colors [FgRed] ":" ++ " " ++ pfmt colors [FgYellow] value ++ "\n"

/-- printer.printHeaders: sanitize the mapping (unless SkipSanitize), then print every
value of every key, in sorted key order. -/
def printHeaders (cur : Logger) (mark : Char) (h : Headers) : List String :=
  let h := if !cur.SkipSanitize then Sanitize DefaultSanitizers h else h
  (sortHeaderKeys h).flatMap (fun key =>
    (headerValues h key).map (fun v => headerLine cur.Colors mark key v))

/-- printer.printResponseHeader: status line, headers, blank line. -/
def printResponseHeader (cur : Logger) (proto status : String) (h : Headers) :
    List String :=
  ["< " ++ pfmt cur.Colors [FgBlue, Bold] proto ++ " " ++
     pfmt cur.Colors [FgRed] status ++ "\n"] ++
  printHeaders cur '<' h ++ ["\n"]

/-- printer.printRequestHeader: request line, Host line when a host is known, headers,
blank line. -/
def printRequestHeader (cur : Logger) (req : Request) : List String :=
  ["> " ++ pfmt cur.Colors [FgBlue, Bold] req.method ++ " " ++
     pfmt cur.Colors [FgYellow] req.requestURI ++ " " ++
     pfmt cur.Colors [FgBlue] req.proto ++ "\n"] ++
  (let host := if req.host = "" then req.urlHost else req.host
   if host ≠ "" then
     ["> " ++ pfmt cur.Colors [FgBlue, Bold] "Host" ++ pfmt cur.Colors [FgRed] ":" ++
       " " ++ pfmt cur.Colors [FgYellow] host ++ "\n"]
   else []) ++
  printHeaders cur '>' req.header ++ ["\n"]

/-- printer.printRequestInfo: the informational line with the destination URL (with the
scheme and host prepended for server-side requests, whose URL has no host), plus the
remote-address line when the request carries one. -/
def printRequestInfo (cur : Logger) (req : Request) : List String :=
  let dest : String :=
    if req.urlHost = "" then
      (if req.tls.isSome then "https://" else "http://") ++ req.host ++ req.urlString
    else req.urlString
  ["* Request to " ++ pfmt cur.Colors [FgBlue] dest ++ "\n"] ++
  (if req.remoteAddr ≠ "" then
    ["* Request from " ++ pfmt cur.Colors [FgBlue] req.remoteAddr ++ "\n"]
   else [])

/-- Print actions of a cycle: one print call with the string it emits, or a
maybeOnReady checkpoint. -/
inductive PrintAct where
  | print (s : String)
  | onReady
deriving DecidableEq

/-- printer.printRequest: header block then body block, each followed by a
maybeOnReady checkpoint. -/
def printRequest (cur : Logger) (req : Request) : List PrintAct :=
  (if cur.RequestHeader then (printRequestHeader cur req).map .print ++ [.onReady]
   else []) ++
  (if cur.RequestBody && req.body.isSome then
    (printRequestBody cur req).out.map .print ++ [.onReady]
   else [])

/-- printer.printResponse: a nil response prints a single error line; otherwise the
header block and then, unless the originating request was a HEAD, the body block. -/
def printResponse (cur : Logger) (resp : Option Response) : List PrintAct :=
  match resp with
  | none =>
    [.print ("< " ++ pfmt cur.Colors [FgRed] "error: null response" ++ "\n"), .onReady]
  | some resp =>
    (if cur.ResponseHeader then
      (printResponseHeader cur resp.proto resp.status resp.header).map .print ++ [.onReady]
     else []) ++
    (if cur.ResponseBody && resp.body.isSome &&
        (match resp.requestMethod with | none => true | some m => m != "HEAD") then
      (printResponseBodyOut cur resp).out.map .print ++ [.onReady]
     else [])

/-- Modelled from the spec: the static table naming TLS protocol versions
(tlsProtocolVersions; its file is not under the source tree). Unknown versions yield ""
and the printer falls back to printing the number itself. -/
def tlsProtocolVersions (v : Nat) : String :=
  if v = 0x0301 then "TLS 1.0"
  else if v = 0x0302 then "TLS 1.1"
  else if v = 0x0303 then "TLS 1.2"
  else if v = 0x0304 then "TLS 1.3"
  else ""

/-- Modelled from the spec: the static table naming TLS cipher suites (tlsCiphers; its
file is not under the source tree). Unknown suites yield "" and the printer falls back
to printing the number itself. -/
def tlsCiphers (c : Nat) : String :=
  if c = 0x1301 then "TLS_AES_128_GCM_SHA256"
  else if c = 0x1302 then "TLS_AES_256_GCM_SHA384"
  else if c = 0x1303 then "TLS_CHACHA20_POLY1305_SHA256"
  else ""

/-- printer.printTLSInfo: protocol/cipher line (with an insecure marker when no
verified chains exist and verification is not deliberately skipped) and the ALPN line.
The fmt.Sprintf fallback for unknown numeric codes is modelled as their decimal
rendering. -/
def printTLSInfo (cur : Logger) (state : Option TLSState) (skipVerifyChains : Bool) :
    List String :=
  match state with
  | none => []
  | some state =>
    let protocol :=
      if tlsProtocolVersions state.version ≠ "" then tlsProtocolVersions state.version
      else toString state.version
    let cipher :=
      if tlsCiphers state.cipherSuite ≠ "" then tlsCiphers state.cipherSuite
      else toString state.cipherSuite
    ["* TLS connection using " ++ pfmt cur.Colors [FgBlue] protocol ++ " / " ++
      pfmt cur.Colors [FgBlue] cipher] ++
    (if !skipVerifyChains && state.verifiedChains.isNone then [" (insecure=true)"]
     else []) ++
    ["\n"] ++
    (if state.negotiatedProtocol ≠ "" then
      ["* ALPN: " ++ pfmt cur.Colors [FgBlue] state.negotiatedProtocol ++ " accepted\n"]
     else [])

/-- printer.findPeerCertificate. A verified chain takes precedence; with no hostname
the first peer certificate is used; otherwise the first peer certificate verifying the
hostname. (Indexing an empty chain list would panic in Go; such states do not occur
and fall to the search branch here.) -/
def findPeerCertificate (hostname : String) (state : TLSState) : Option Certificate :=
  match state.verifiedChains with
  | some (chain0 :: _) =>
    match chain0 with
    | cert0 :: _ => some cert0
    | [] => none
  | _ =>
    if hostname = "" && !state.peerCertificates.isEmpty then
      state.peerCertificates.head?
    else
      state.peerCertificates.find? (fun cert => (cert.verifyHostnameErr hostname).isNone)

/-- printer.printCertificate: one printf with the four certificate lines, then the
hostname verification line when a hostname is given. -/
def printCertificate (cur : Logger) (hostname : String) (cert : Certificate) :
    List String :=
  ["*  subject: " ++ pfmt cur.Colors [FgBlue] cert.subject ++ "\n" ++
   "*  start date: " ++ pfmt cur.Colors [FgBlue] cert.notBefore ++ "\n" ++
   "*  expire date: " ++ pfmt cur.Colors [FgBlue] cert.notAfter ++ "\n" ++
   "*  issuer: " ++ pfmt cur.Colors [FgBlue] cert.issuer ++ "\n"] ++
  (if hostname = "" then []
   else match cert.verifyHostnameErr hostname with
   | some e => ["*  " ++ pfmt cur.Colors [FgRed] e ++ "\n"]
   | none => ["*  TLS certificate verify ok.\n"])

/-- Models net.SplitHostPort for the forms that occur here: host:port yields the host,
anything else makes SplitHostPort fail and the printer falls back to the full value. -/
def splitHostPort (host : String) : String :=
  match host.splitOn ":" with
  | [h, _] => h
  | _ => host

/-- printer.printTLSServer. -/
def printTLSServer (cur : Logger) (host : String) (state : Option TLSState) :
    List String :=
  match state with
  | none => []
  | some state =>
    let hostname := splitHostPort host
    ["* Server certificate:\n"] ++
    (match findPeerCertificate hostname state with
     | none => [pfmt cur.Colors [FgRed] "** No valid certificate was found" ++ "\n"]
     | some cert => printCertificate cur hostname cert)

/-- tls.Config fields consumed by printOutgoingClientTLS: the configured client
certificates (each with its optionally parsed leaf) and InsecureSkipVerify. -/
structure ClientTLSConfig where
  certificates : List (Option Certificate)
  insecureSkipVerify : Bool

/-- printer.printOutgoingClientTLS. -/
def printOutgoingClientTLS (cur : Logger) (config : Option ClientTLSConfig) :
    List String :=
  match config with
  | none => []
  | some config =>
    if config.certificates.isEmpty then []
    else
      ["* Client certificate:\n"] ++
      (match config.certificates.headD none with
       | none => ["** unparsed certificate found, skipping\n"]
       | some cert => printCertificate cur "" cert)

/-- printer.printIncomingClientTLS. -/
def printIncomingClientTLS (cur : Logger) (state : Option TLSState) : List String :=
  match state with
  | none => []
  | some state =>
    if state.peerCertificates.isEmpty then []
    else
      ["* Client certificate:\n"] ++
      (match findPeerCertificate "" state with
       | none => [pfmt cur.Colors [FgRed] "** No valid certificate was found" ++ "\n"]
       | some cert => printCertificate cur "" cert)

/-- The printer instance built by newPrinter, together with the shared sink: flusher is
the snapshot taken at construction under the Logger's mutex; buf is the printer's
private buffer; sink records each write made to the Logger's output writer (one entry
per Fprint call, so the sink's byte content is the concatenation of the entries). The
filter is NOT part of this state: printer.checkFilter fetches it from the Logger at
call time. -/
structure PState where
  flusher : Flusher
  buf : String := ""
  sink : List String := []
deriving DecidableEq

/-- printer.newPrinter: constructs the per-cycle printer under the Logger's mutex. The
flush strategy is the only configuration it copies into the instance; everything else
stays behind the Logger reference. -/
def newPrinter (l : Logger) : PState :=
  { flusher := l.flusher }

/-- printer.printf / print / println: with NoBuffer the text goes straight to the
writer; otherwise it is appended to the printer's private buffer. -/
def pprint (p : PState) (s : String) : PState :=
  if p.flusher = .NoBuffer then { p with sink := p.sink ++ [s] }
  else { p with buf := p.buf ++ s }

/-- printer.flush: with NoBuffer nothing happens; otherwise the whole private buffer is
written to the writer in one Fprint call and the buffer is reset. -/
def pflush (p : PState) : PState :=
  if p.flusher = .NoBuffer then p
  else { p with sink := p.sink ++ [p.buf], buf := "" }

/-- printer.maybeOnReady. -/
def maybeOnReady (p : PState) : PState :=
  if p.flusher = .OnReady then pflush p else p

/-- Run a cycle's print actions through the printer. -/
def runActs (p : PState) : List PrintAct → PState
  | [] => p
  | .print s :: revir => runActs (pprint p s) revir
  | .onReady :: revir => runActs (maybeOnReady p) revir

/-- The byte content of a sequence of print actions: the concatenation of the printed
strings (what a cycle's whole transcript looks like). -/
def actsText : List PrintAct → String
  | [] => ""
  | .print s :: revir => s ++ actsText revir
  | .onReady :: revir => actsText revir

/-- The print actions of one httpretty.roundTripper.RoundTrip cycle, in source order,
together with the wrapped tripper's result. The tripper is modelled as a function from
the request to (response, error); tlsClientConfig is the TLSClientConfig obtained when
the tripper.(*http.Transport) type assertion succeeds (none for custom trippers). t0
and dur are the wall-clock strings printed by printTimeRequest. A nil response with a
nil error would make the deferred response printing panic in Go (the RoundTripper
contract rules it out); it is modelled as producing no response output. -/
def roundTripActs (l : Logger) (tripper : Request → Option Response × Option String)
    (tlsClientConfig : Option ClientTLSConfig) (req : Request) (t0 dur : String) :
    List PrintAct × (Option Response × Option String) :=
  let cf := if req.hide then ([], true) else checkFilter l (some req)
  if req.hide || cf.2 then
    (cf.1.map .print, tripper req)
  else
    let timeStart : List PrintAct :=
      if l.Time then [.print ("* Request at " ++ t0 ++ "\n")] else []
    let reqInfo : List PrintAct :=
      if !l.SkipRequestInfo then (printRequestInfo l req).map .print else []
    let insecureWarn : List PrintAct :=
      match tlsClientConfig with
      | some cfg =>
        if cfg.insecureSkipVerify then
          [.print ("* Skipping TLS verification: " ++
            pfmt l.Colors [FgRed]
              "connection is susceptible to man-in-the-middle attacks." ++ "\n")]
        else []
      | none => []
    let clientTLS : List PrintAct :=
      if l.TLS && tlsClientConfig.isSome then
        (printOutgoingClientTLS l tlsClientConfig).map .print
      else []
    let res := tripper req
    let respActs : List PrintAct :=
      (match res.2 with
       | some e => [.print ("* " ++ pfmt l.Colors [FgRed] e ++ "\n")]
       | none => []) ++
      (match res.1 with
       | none => []
       | some resp =>
         (printTLSInfo l resp.tls false).map .print ++
         (printTLSServer l req.host resp.tls).map .print ++
         printResponse l (some resp))
    let timeEnd : List PrintAct :=
      if l.Time then [.print ("* Request took " ++ dur ++ "\n")] else []
    (cf.1.map .print ++ (timeStart ++ (reqInfo ++ (insecureWarn ++ (clientTLS ++
      (printRequest l req ++ (respActs ++ timeEnd)))))), res)

/-- httpretty.roundTripper.RoundTrip proper: runs the cycle's print actions through
the printer built by newPrinter and ends with the single deferred flush; the wrapped
tripper's result is returned unchanged. -/
def roundTrip (l : Logger) (tripper : Request → Option Response × Option String)
    (tlsClientConfig : Option ClientTLSConfig) (req : Request) (t0 dur : String) :
    List String × (Option Response × Option String) :=
  ((pflush (runActs (newPrinter l)
      (roundTripActs l tripper tlsClientConfig req t0 dur).1)).sink,
   (roundTripActs l tripper tlsClientConfig req t0 dur).2)

/-- The wrapped handler's observable writes: the status code (200 when WriteHeader is
never called, as the recorder initializes it), the response headers, and the body
bytes written. -/
structure HandlerOutput where
  statusCode : Nat := 200
  header : Headers := []
  body : List Nat := []
deriving DecidableEq

/-- Modelled from the spec: the response recorder (its file is not under the source
tree; httpretty.go constructs it and printer.go reads statusCode, size, buf and
Header()). It captures the status code, headers, body size and body bytes as the
handler writes them, without altering what is sent to the caller; its buffer retains
at most maxReadableBody bytes when that ceiling is positive (ceiling-bounded capture). -/
structure ResponseRecorder where
  statusCode : Nat
  header : Headers
  size : Nat
  buf : List Nat

/-- Modelled from the spec: how the recorder ends up after the handler ran. -/
def recordResponse (maxReadableBody : Int) (out : HandlerOutput) : ResponseRecorder :=
  { statusCode := out.statusCode
    header := out.header
    size := out.body.length
    buf := if 0 < maxReadableBody then out.body.take maxReadableBody.toNat
           else out.body }

/-- Models net/http.StatusText for the codes exercised here (collaborator table). -/
def statusText (code : Nat) : String :=
  if code = 200 then "OK"
  else if code = 201 then "Created"
  else if code = 204 then "No Content"
  else if code = 400 then "Bad Request"
  else if code = 404 then "Not Found"
  else if code = 500 then "Internal Server Error"
  else ""

/-- printer.printServerResponse: response header block from the recorder, then the
body block guarded by the ResponseBody flag, a non-zero recorded size, the body
filter, and the response ceiling. -/
def printServerResponse (cur : Logger) (req : Request) (rcd : ResponseRecorder) :
    List String :=
  (if cur.ResponseHeader then
    printResponseHeader cur req.proto
      (toString rcd.statusCode ++ " " ++ statusText rcd.statusCode) rcd.header
   else []) ++
  (if !cur.ResponseBody || rcd.size = 0 then []
   else
    let bf := checkBodyFiltered cur rcd.header
    let bfOut := bf.1 ++
      (match bf.2.2 with
       | some e =>
         ["* " ++ pfmt cur.Colors [FgRed] ("error on response body filter: " ++ e) ++ "\n"]
       | none => [])
    if bf.2.1 then bfOut
    else if 0 < cur.MaxResponseBody ∧ cur.MaxResponseBody < (rcd.size : Int) then
      bfOut ++ [tooLongKnownLine rcd.size cur.MaxResponseBody]
    else
      bfOut ++ printBodyReader cur.Colors cur.Formatters
        (headerGet rcd.header "Content-Type") rcd.buf)

/-- httpretty.httpHandler.ServeHTTP: the server-side middleware. next is the wrapped
handler; its writes always reach the real ResponseWriter unchanged (directly on the
hidden path, through the pass-through recorder otherwise). Returns the sink writes and
what was sent to the caller. -/
def serveHTTP (l : Logger) (next : Request → HandlerOutput) (req : Request)
    (t0 dur : String) : List String × HandlerOutput :=
  let p := newPrinter l
  let cf := if req.hide then ([], true) else checkFilter l (some req)
  if req.hide || cf.2 then
    ((pflush (runActs p (cf.1.map .print))).sink, next req)
  else
    let timeStart : List PrintAct :=
      if l.Time then [.print ("* Request at " ++ t0 ++ "\n")] else []
    let reqInfo : List PrintAct :=
      if !l.SkipRequestInfo then (printRequestInfo l req).map .print else []
    let tlsActs : List PrintAct :=
      if l.TLS then
        (printTLSInfo l req.tls true).map .print ++
        (printIncomingClientTLS l req.tls).map .print
      else []
    let out := next req
    let rcd := recordResponse l.MaxResponseBody out
    let acts := cf.1.map .print ++ timeStart ++ reqInfo ++ tlsActs ++
      printRequest l req ++ (printServerResponse l req rcd).map .print ++
      (if l.Time then [.print ("* Request took " ++ dur ++ "\n")] else [])
    ((pflush (runActs p acts)).sink, out)

/-! ## Theorems -/

/-- Helper: running print actions under the OnEnd strategy only grows the private
buffer; the sink is untouched. -/
theorem runActs_onEnd (acts : List PrintAct) :
    ∀ (b0 : String) (s0 : List String),
      runActs ⟨.OnEnd, b0, s0⟩ acts = ⟨.OnEnd, b0 ++ actsText acts, s0⟩ := by
  induction acts with
  | nil => intro b0 s0; simp [runActs, actsText]
  | cons a rest ih =>
    intro b0 s0
    cases a with
    | print s =>
      simp only [runActs, pprint, actsText, maybeOnReady]
      rw [if_neg (by simp), ih]
      simp [String.append_assoc]
    | onReady =>
      simp only [runActs, maybeOnReady, actsText]
      rw [if_neg (by simp), ih]

/-- Claim C8: under the OnEnd flush strategy no byte of a cycle's transcript reaches the sink
before the cycle ends — every print call only appends to the printer's private buffer —
and the single flush at the end writes the entire buffered transcript to the sink as
exactly one write. -/
theorem onEnd_buffers_whole_cycle_and_flushes_once (acts : List PrintAct) :
    runActs (newPrinter { flusher := .OnEnd }) acts =
      ⟨.OnEnd, actsText acts, []⟩ ∧
    pflush (runActs (newPrinter { flusher := .OnEnd }) acts) =
      ⟨.OnEnd, "", [actsText acts]⟩ := by
  have h := runActs_onEnd acts "" []
  constructor
  · simpa [newPrinter] using h
  · rw [show newPrinter { flusher := .OnEnd } = ⟨.OnEnd, "", []⟩ from rfl, h]
    simp [pflush]

/-- Claim C2: when the declared Content-Length exceeds the configured positive ceiling, the
body pass (request or response side) skips capture entirely, prints exactly the
"body is too long ... to print, skipping" diagnostic with the declared length and the
ceiling, and consumes zero bytes of the original stream (the consumer still sees the
whole body). Stated for a Logger without a body filter installed. -/
theorem tooLong_declared_body_skipped (l : Logger) (req : Request) (resp : Response)
    (bq br : ByteStream)
    (hbf : l.bodyFilter = none)
    (hreqbody : req.body = some bq) (hrespbody : resp.body = some br)
    (hqpos : 0 < l.MaxRequestBody) (hqlong : l.MaxRequestBody < req.contentLength)
    (hppos : 0 < l.MaxResponseBody) (hplong : l.MaxResponseBody < resp.contentLength) :
    printRequestBody l req =
      ⟨[tooLongKnownLine req.contentLength l.MaxRequestBody], 0, bq.data⟩ ∧
    printResponseBodyOut l resp =
      ⟨[tooLongKnownLine resp.contentLength l.MaxResponseBody], 0, br.data⟩ := by
  constructor
  · unfold printRequestBody
    rw [hreqbody]
    simp only [checkBodyFiltered, hbf, List.append_nil, List.nil_append]
    rw [if_neg (by simp), if_pos ⟨hqpos, hqlong⟩]
  · unfold printResponseBodyOut
    have hne : resp.contentLength ≠ 0 := by
      intro h; rw [h] at hplong; exact absurd (lt_trans hppos hplong) (lt_irrefl 0)
    rw [if_neg hne, hrespbody]
    simp only [checkBodyFiltered, hbf, Option.getD_some, List.append_nil, List.nil_append]
    rw [if_neg (by simp), if_pos ⟨hppos, hplong⟩]

/-- Witness for the too-long theorem at a concrete configuration. -/
theorem tooLong_declared_body_skipped_witness :
    printRequestBody { MaxRequestBody := 5, MaxResponseBody := 7 }
        { contentLength := 9, body := some ⟨[1, 2, 3], false⟩ } =
      ⟨[tooLongKnownLine 9 5], 0, [1, 2, 3]⟩ ∧
    printResponseBodyOut { MaxRequestBody := 5, MaxResponseBody := 7 }
        { contentLength := 11, body := some ⟨[4, 5], true⟩ } =
      ⟨[tooLongKnownLine 11 7], 0, [4, 5]⟩ :=
  tooLong_declared_body_skipped
    { MaxRequestBody := 5, MaxResponseBody := 7 }
    { contentLength := 9, body := some ⟨[1, 2, 3], false⟩ }
    { contentLength := 11, body := some ⟨[4, 5], true⟩ }
    ⟨[1, 2, 3], false⟩ ⟨[4, 5], true⟩
    rfl rfl rfl (by norm_num) (by norm_num) (by norm_num) (by norm_num)

/-- Claim C4: a filter that panics or returns a non-nil error never suppresses the request:
checkFilter answers "do not skip" and prints exactly one diagnostic line that names the
request (method and URL) and the fault; the RoundTrip cycle's transcript is that
diagnostic followed by exactly the transcript the same cycle would produce with no
filter installed (the request is logged, the diagnostic coming first). -/
theorem filter_fault_fails_open (l : Logger) (f : Filter) (req : Request)
    (tripper : Request → Option Response × Option String)
    (tlscfg : Option ClientTLSConfig) (t0 dur : String)
    (hf : l.filter = some f)
    (hfault : (∃ m, f req = .panicked m) ∨ ∃ b e, f req = .ok (b, some e)) :
    (checkFilter l (some req)).2 = false ∧
    (checkFilter l (some req)).1.length = 1 ∧
    (∀ m, f req = .panicked m →
      (checkFilter l (some req)).1 =
        [cannotFilterRequestLine l.Colors req ("panic: " ++ m)]) ∧
    (∀ b e, f req = .ok (b, some e) →
      (checkFilter l (some req)).1 = [cannotFilterRequestLine l.Colors req e]) ∧
    (req.hide = false →
      (roundTripActs l tripper tlscfg req t0 dur).1 =
        (checkFilter l (some req)).1.map PrintAct.print ++
          (roundTripActs { l with filter := none } tripper tlscfg req t0 dur).1) := by
  have hordering : (checkFilter l (some req)).2 = false → req.hide = false →
      (roundTripActs l tripper tlscfg req t0 dur).1 =
        (checkFilter l (some req)).1.map PrintAct.print ++
          (roundTripActs { l with filter := none } tripper tlscfg req t0 dur).1 := by
    intro hskip hhide
    have hcf2 : checkFilter { l with filter := none } (some req) = ([], false) := rfl
    unfold roundTripActs
    rw [hhide]
    dsimp only
    rw [if_neg (by simp [hskip]), hcf2]
    rfl
  rcases hfault with ⟨m, hm⟩ | ⟨b, e, he⟩
  · have hskip : (checkFilter l (some req)).2 = false := by
      simp [checkFilter, safeFilter, hf, hm]
    refine ⟨hskip, ?_, ?_, ?_, hordering hskip⟩
    · simp [checkFilter, safeFilter, hf, hm]
    · intro m2 hm2
      rw [hm] at hm2
      cases hm2
      simp [checkFilter, safeFilter, hf, hm]
    · intro b2 e2 he2
      rw [hm] at he2
      exact absurd he2 (by simp)
  · have hskip : (checkFilter l (some req)).2 = false := by
      simp [checkFilter, safeFilter, hf, he]
    refine ⟨hskip, ?_, ?_, ?_, hordering hskip⟩
    · simp [checkFilter, safeFilter, hf, he]
    · intro m2 hm2
      rw [he] at hm2
      exact absurd hm2 (by simp)
    · intro b2 e2 he2
      rw [he] at he2
      cases he2
      simp [checkFilter, safeFilter, hf, he]

/-- Witness: a panicking filter at a concrete request. -/
theorem filter_fault_fails_open_witness :
    (checkFilter { filter := some (fun _ => .panicked "boom") } (some {})).2 = false ∧
    (checkFilter { filter := some (fun _ => .panicked "boom") } (some {})).1 =
      [cannotFilterRequestLine false {} "panic: boom"] := by
  have h := filter_fault_fails_open { filter := some (fun _ => .panicked "boom") }
    (fun _ => .panicked "boom") {} (fun _ => (none, none)) none "t" "d" rfl
    (Or.inl ⟨"boom", rfl⟩)
  exact ⟨h.1, h.2.2.1 "boom" rfl⟩

/-- Helper: an empty cycle (construction followed only by the deferred flush) writes
zero bytes to the sink under every flush strategy. -/
theorem emptyCycle_sink_empty (fl : Flusher) :
    String.join (pflush (runActs ⟨fl, "", []⟩ [])).sink = "" := by
  cases fl <;> simp [runActs, pflush, String.join]

/-- Claim C5: a request carrying the hide marker, or one the Filter skips (skip=true with no
error), produces zero output bytes from both adapters, while the wrapped transport or
handler still executes and its result is returned unchanged. -/
theorem hidden_or_filtered_cycle_silent (l : Logger)
    (tripper : Request → Option Response × Option String)
    (tlscfg : Option ClientTLSConfig) (next : Request → HandlerOutput)
    (req : Request) (t0 dur : String)
    (hsupp : req.hide = true ∨ ∃ f, l.filter = some f ∧ f req = .ok (true, none)) :
    String.join (roundTrip l tripper tlscfg req t0 dur).1 = "" ∧
    (roundTrip l tripper tlscfg req t0 dur).2 = tripper req ∧
    String.join (serveHTTP l next req t0 dur).1 = "" ∧
    (serveHTTP l next req t0 dur).2 = next req := by
  have hbranch : (if req.hide then (([] : List String), true)
      else checkFilter l (some req)).1 = [] ∧
      (req.hide || (if req.hide then (([] : List String), true)
        else checkFilter l (some req)).2) = true := by
    rcases hsupp with hhide | ⟨f, hf, hfr⟩
    · rw [hhide]; exact ⟨rfl, rfl⟩
    · by_cases hhide : req.hide
      · rw [hhide]; simp
      · have hcf : checkFilter l (some req) = ([], true) := by
          simp [checkFilter, safeFilter, hf, hfr]
        simp [hhide, hcf]
  have hacts : roundTripActs l tripper tlscfg req t0 dur =
      ((if req.hide then (([] : List String), true)
        else checkFilter l (some req)).1.map PrintAct.print, tripper req) := by
    unfold roundTripActs
    rw [if_pos hbranch.2]
  unfold roundTrip serveHTTP
  rw [hacts, if_pos hbranch.2, hbranch.1]
  refine ⟨?_, rfl, ?_, rfl⟩ <;>
    simpa [newPrinter] using emptyCycle_sink_empty l.flusher

/-- Witness: a hidden request through both adapters with concrete collaborators. -/
theorem hidden_or_filtered_cycle_silent_witness :
    String.join (roundTrip {} (fun _ => (none, some "refused")) none { hide := true }
      "t" "d").1 = "" ∧
    (roundTrip {} (fun _ => (none, some "refused")) none { hide := true } "t" "d").2 =
      (none, some "refused") ∧
    String.join (serveHTTP {} (fun _ => { statusCode := 204 }) { hide := true }
      "t" "d").1 = "" ∧
    (serveHTTP {} (fun _ => { statusCode := 204 }) { hide := true } "t" "d").2 =
      { statusCode := 204 } :=
  hidden_or_filtered_cycle_silent {} (fun _ => (none, some "refused")) none
    (fun _ => { statusCode := 204 }) { hide := true } "t" "d" (Or.inl rfl)

/-- Helper: formatters that do not match (Match returns false or panics) are skipped,
each contributing only the diagnostic lines of safeBodyMatch, and the chain continues
with the remaining formatters. -/
theorem runFormatters_skip_nomatched (colors : Bool) (mt : String) (body : List Nat)
    (fs₁ : List Formatter)
    (h : ∀ g ∈ fs₁, g.Match mt = .ok false ∨ ∃ m, g.Match mt = .panicked m) :
    ∀ tail : List Formatter,
      runFormatters colors mt body (fs₁ ++ tail) =
        fs₁.flatMap (fun g => (safeBodyMatch g mt).1) ++
          runFormatters colors mt body tail := by
  induction fs₁ with
  | nil => intro tail; simp
  | cons g gs ih =>
    intro tail
    have hgs : ∀ x ∈ gs, x.Match mt = .ok false ∨ ∃ m, x.Match mt = .panicked m :=
      fun x hx => h x (List.mem_cons_of_mem _ hx)
    have hmg : (safeBodyMatch g mt).2 = false := by
      rcases h g (List.mem_cons_self _ _) with hg | ⟨m, hg⟩ <;> simp [safeBodyMatch, hg]
    simp only [List.cons_append, runFormatters]
    rw [if_neg (by simp [hmg])]
    simp only [List.append_eq]
    rw [ih hgs]
    simp

/-- Claim C6: the first formatter whose Match returns true is the only one whose Format is
applied (the formatters after it never run, and the ones before it contribute only
their Match-panic diagnostics, one line per panicking Match); if the chosen formatter's
Format errors or panics, the raw unformatted body is printed after a diagnostic naming
the fault, and no further formatter is tried. -/
theorem formatter_first_match_wins (colors : Bool) (ct : String) (body : List Nat)
    (fs₁ fs₂ : List Formatter) (f : Formatter)
    (hnomatch : ∀ g ∈ fs₁, g.Match (parseMediaType ct) = .ok false ∨
      ∃ m, g.Match (parseMediaType ct) = .panicked m)
    (hmatch : f.Match (parseMediaType ct) = .ok true) :
    (∀ bs, safeBodyFormat f body = .ok bs →
      printBodyReader colors (fs₁ ++ f :: fs₂) ct body =
        fs₁.flatMap (fun g => (safeBodyMatch g (parseMediaType ct)).1) ++
          [bytesToString bs ++ "\n"]) ∧
    (∀ e, safeBodyFormat f body = .error e →
      printBodyReader colors (fs₁ ++ f :: fs₂) ct body =
        fs₁.flatMap (fun g => (safeBodyMatch g (parseMediaType ct)).1) ++
          ["* body cannot be formatted: " ++ pfmt colors [FgRed] e ++ "\n" ++
            bytesToString body ++ "\n"]) ∧
    (∀ g ∈ fs₁, ∀ m, g.Match (parseMediaType ct) = .panicked m →
      (safeBodyMatch g (parseMediaType ct)).1 =
        ["* panic while testing body format: " ++ m ++ "\n"]) := by
  have hbase : runFormatters colors (parseMediaType ct) body (fs₁ ++ f :: fs₂) =
      fs₁.flatMap (fun g => (safeBodyMatch g (parseMediaType ct)).1) ++
        runFormatters colors (parseMediaType ct) body (f :: fs₂) :=
    runFormatters_skip_nomatched colors (parseMediaType ct) body fs₁ hnomatch (f :: fs₂)
  have hm : safeBodyMatch f (parseMediaType ct) = ([], true) := by
    simp [safeBodyMatch, hmatch]
  refine ⟨?_, ?_, ?_⟩
  · intro bs hbs
    unfold printBodyReader
    rw [hbase]
    simp [runFormatters, hm, hbs]
  · intro e he
    unfold printBodyReader
    rw [hbase]
    simp [runFormatters, hm, he]
  · intro g hg m hgm
    simp [safeBodyMatch, hgm]

/-- Witness: a panicking Match followed by a matching formatter whose Format errors,
with a further formatter that is provably never consulted. -/
theorem formatter_first_match_wins_witness :
    printBodyReader false
      [⟨fun _ => .panicked "match boom", fun _ => .ok (.ok [])⟩,
       ⟨fun _ => .ok true, fun _ => .ok (.error "bad json")⟩,
       ⟨fun _ => .ok true, fun _ => .ok (.ok [88])⟩] "application/json" [104, 105] =
      ["* panic while testing body format: match boom\n",
       "* body cannot be formatted: bad json\nhi\n"] := by
  have h := formatter_first_match_wins false "application/json" [104, 105]
    [⟨fun _ => .panicked "match boom", fun _ => .ok (.ok [])⟩]
    [⟨fun _ => .ok true, fun _ => .ok (.ok [88])⟩]
    ⟨fun _ => .ok true, fun _ => .ok (.error "bad json")⟩
    (by intro g hg; simp at hg; rw [hg]; exact Or.inr ⟨"match boom", rfl⟩)
    rfl
  have h2 := h.2.1 "bad json" rfl
  simpa [safeBodyMatch] using h2

/-- Claim C7 counterexample: newPrinter does NOT snapshot the filter. The printer instance
built from a Logger with a skip-everything filter is identical to the one built after
the filter was removed (nothing of the filter is captured at construction), and the
filtering decision taken during the cycle flips with the mutation: under the
construction-time state the request is skipped, under the mutated state it is not.
So a mutation of the filter after construction does change which filter the Printer
uses, contradicting the claim at this concrete input. -/
theorem newPrinter_does_not_snapshot_filter :
    newPrinter { filter := none, flusher := .OnEnd } =
      newPrinter { filter := some (fun _ => .ok (true, none)), flusher := .OnEnd } ∧
    (checkFilter { filter := some (fun _ => .ok (true, none)), flusher := .OnEnd }
      (some {})).2 = true ∧
    (checkFilter { filter := none, flusher := .OnEnd } (some {})).2 = false :=
  ⟨rfl, rfl, rfl⟩

/-- Claim C7 amended: newPrinter snapshots only the flush strategy under the Logger's mutex
(the printer instance consists of the copied flusher and fresh buffers); the filter is
not snapshotted — checkFilter is a function of the Logger state current at call time,
reading its filter (and Colors for rendering) under the lock. -/
theorem newPrinter_snapshots_only_flusher (l cur cur2 : Logger) (req : Option Request)
    (hfil : cur.filter = cur2.filter) (hcol : cur.Colors = cur2.Colors) :
    newPrinter l = { flusher := l.flusher } ∧
    checkFilter cur req = checkFilter cur2 req := by
  refine ⟨rfl, ?_⟩
  unfold checkFilter cannotFilterRequestLine
  rw [hfil, hcol]

/-- Witness: the flusher snapshot and the checkFilter agreement at concrete loggers
that differ only in their flush strategy. -/
theorem newPrinter_snapshots_only_flusher_witness :
    newPrinter { flusher := .OnReady } = { flusher := Flusher.OnReady } ∧
    checkFilter { flusher := .OnEnd } (some {}) =
      checkFilter { flusher := .NoBuffer } (some {}) :=
  newPrinter_snapshots_only_flusher { flusher := .OnReady } { flusher := .OnEnd }
    { flusher := .NoBuffer } (some {}) rfl rfl

/-- Claim C9: printHeaders prints the header lines grouped by key in ascending lexicographic
order of the raw key strings (sortHeaderKeys is a sort of the keys: it is sorted under
String ≤ and a permutation of the keys of the printed mapping), where the printed
mapping is the sanitized copy unless SkipSanitize is set, and sanitization does not
change the keys. -/
theorem printHeaders_sorted_sanitized (cur : Logger) (mark : Char) (h : Headers) :
    List.Sorted (fun a b => a ≤ b)
      (sortHeaderKeys (if !cur.SkipSanitize then Sanitize DefaultSanitizers h else h)) ∧
    (sortHeaderKeys (if !cur.SkipSanitize then Sanitize DefaultSanitizers h else h)).Perm
      ((if !cur.SkipSanitize then Sanitize DefaultSanitizers h else h).map Prod.fst) ∧
    (if !cur.SkipSanitize then Sanitize DefaultSanitizers h else h).map Prod.fst =
      h.map Prod.fst ∧
    printHeaders cur mark h =
      (sortHeaderKeys (if !cur.SkipSanitize then Sanitize DefaultSanitizers h else h)).flatMap
        (fun key =>
          (headerValues (if !cur.SkipSanitize then Sanitize DefaultSanitizers h else h)
            key).map (fun v => headerLine cur.Colors mark key v)) := by
  refine ⟨List.sorted_insertionSort _ _, List.perm_insertionSort _ _, ?_, rfl⟩
  cases hcs : cur.SkipSanitize
  · show (Sanitize DefaultSanitizers h).map Prod.fst = h.map Prod.fst
    unfold Sanitize
    rw [List.map_map]
    apply List.map_congr_left
    intro kv _
    dsimp only [Function.comp]
    split <;> rfl
  · rfl

/-- Claim C10: a client-side response whose originating request used the HEAD method never
gets a response body section: printResponse output is the same as if the ResponseBody
flag were disabled, even with a non-nil body and the flag enabled. -/
theorem head_response_has_no_body_section (cur : Logger) (resp : Response)
    (hhead : resp.requestMethod = some "HEAD") :
    printResponse cur (some resp) =
      printResponse { cur with ResponseBody := false } (some resp) := by
  simp only [printResponse, hhead]
  simp [printResponseHeader, printHeaders]

/-- Witness: a HEAD-originated response carrying a non-nil body under a logger with
ResponseBody enabled. -/
theorem head_response_has_no_body_section_witness :
    printResponse { ResponseHeader := true, ResponseBody := true }
      (some { requestMethod := some "HEAD", contentLength := 9846,
              body := some ⟨[65, 66], false⟩ }) =
    printResponse { ResponseHeader := true, ResponseBody := false }
      (some { requestMethod := some "HEAD", contentLength := 9846,
              body := some ⟨[65, 66], false⟩ }) :=
  head_response_has_no_body_section { ResponseHeader := true, ResponseBody := true }
    { requestMethod := some "HEAD", contentLength := 9846,
      body := some ⟨[65, 66], false⟩ } rfl

/-- Helper: the single bufio-mediated read never delivers more than the requested
capacity. -/
theorem bufioRead_length_le (r : ByteStream) (c : Nat) :
    (bufioRead r c).1.length ≤ c := by
  unfold bufioRead streamRead
  by_cases hdir : bufioDefaultBufSize ≤ c
  · rw [if_pos hdir]
    simp [List.length_take]
  · rw [if_neg hdir]
    dsimp only
    split
    · simp
    · simp [List.length_take]

/-- Helper: a read that delivers no bytes means the stream was already exhausted, and
io.EOF is reported. -/
theorem bufioRead_nil_eof (r : ByteStream) (c : Nat) (hc : 0 < c)
    (hnil : (bufioRead r c).1 = []) :
    r.data = [] ∧ (bufioRead r c).2.1 = true := by
  unfold bufioRead streamRead at hnil ⊢
  by_cases hdir : bufioDefaultBufSize ≤ c
  · rw [if_pos hdir] at hnil ⊢
    dsimp only at hnil ⊢
    have hdata : r.data = [] := by
      rcases (List.take_eq_nil_iff.1 hnil) with h | h
      · omega
      · exact h
    simp [hdata]
  · rw [if_neg hdir] at hnil ⊢
    dsimp only at hnil ⊢
    by_cases hfe : (r.data.take bufioDefaultBufSize).isEmpty
    · have hdata : r.data = [] := by
        rcases List.take_eq_nil_iff.1 (List.isEmpty_iff.1 hfe) with h | h
        · simp [bufioDefaultBufSize] at h
        · exact h
      simp [hdata]
    · rw [if_neg (by simp [hfe])] at hnil
      dsimp only at hnil
      rcases List.take_eq_nil_iff.1 hnil with h | h
      · omega
      · exact absurd (List.isEmpty_iff.2 h) hfe

/-- Helper: when the read reports io.EOF together with data, the stream has nothing
left (the EOF-with-data report only happens on the direct read path, for an eager
stream drained by this very read). -/
theorem bufioRead_eof_rest (r : ByteStream) (c : Nat)
    (hne : (bufioRead r c).1 ≠ []) (heof : (bufioRead r c).2.1 = true) :
    (bufioRead r c).2.2.data = [] := by
  unfold bufioRead streamRead at hne heof ⊢
  by_cases hdir : bufioDefaultBufSize ≤ c
  · rw [if_pos hdir] at hne heof ⊢
    dsimp only at hne heof ⊢
    rcases Bool.or_eq_true_iff.1 heof with h | h
    · have : r.data = [] := by simpa using h
      simp [this]
    · exact List.isEmpty_iff.1 (Bool.and_eq_true_iff.1 h).2
  · rw [if_neg hdir] at hne heof ⊢
    dsimp only at hne heof ⊢
    by_cases hfe : (r.data.take bufioDefaultBufSize).isEmpty
    · rw [if_pos (by simp [hfe])] at hne
      exact absurd rfl hne
    · rw [if_neg (by simp [hfe])] at heof
      exact absurd heof (by simp)

/-- Claim C1, evaluated at the failing input: an unknown-length response body of 8192 bytes with
MaxResponseBody = 1000 (below the 4096-byte bufio buffer). The capture pass consumes
4096 bytes from the original stream but captures only 1000 of them; the replacement
body gives the consumer 1000 + 4096 = 5096 bytes instead of the original 8192 — the
bytes readable after the capture pass are NOT the bytes readable without it (the 3096
bytes stranded in the abandoned bufio buffer are lost), contradicting the
non-destructive-capture property the spec states and the repository's own
TestOutgoingLongResponseUnknownLengthTooLong ("long 1kb", MaxResponseBody 1000)
asserts via testBody. -/
theorem responseBody_capture_loses_bytes :
    printResponseBodyOut { ResponseBody := true, MaxResponseBody := 1000 }
        { contentLength := -1, body := some ⟨List.replicate 8192 65, true⟩ } =
      ⟨[tooLongUnknownLine 1000], 4096,
        List.replicate 1000 65 ++ List.replicate 4096 65⟩ ∧
    (List.replicate 8192 65 : List Nat).length = 8192 ∧
    ((List.replicate 1000 65 ++ List.replicate 4096 65 : List Nat)).length = 5096 ∧
    List.replicate 1000 65 ++ List.replicate 4096 65 ≠
      (List.replicate 8192 65 : List Nat) := by
  have h1 : (List.replicate 8192 65 : List Nat).take bufioDefaultBufSize =
      List.replicate 4096 65 := by
    rw [List.take_replicate]
    norm_num [bufioDefaultBufSize]
  have h2 : (List.replicate 8192 65 : List Nat).drop bufioDefaultBufSize =
      List.replicate 4096 65 := by
    rw [List.drop_replicate]
    norm_num [bufioDefaultBufSize]
  have h3 : (List.replicate 4096 65 : List Nat).take 1000 = List.replicate 1000 65 := by
    rw [List.take_replicate]
    norm_num
  have h4 : (List.replicate 4096 65 : List Nat).isEmpty = false := by
    rw [show (4096 : Nat) = 4095 + 1 from rfl, List.replicate_succ]
    rfl
  have hb : bufioRead ⟨List.replicate 8192 65, true⟩ 1000 =
      (List.replicate 1000 65, false, ⟨List.replicate 4096 65, true⟩) := by
    unfold bufioRead streamRead
    rw [if_neg (by norm_num [bufioDefaultBufSize])]
    dsimp only
    rw [h1, h2, h4]
    rw [if_neg (by decide), h3]
  have hu : printBodyUnknownLength false [] "" 1000 ⟨List.replicate 8192 65, true⟩ =
      ⟨[tooLongUnknownLine 1000],
        some (List.replicate 1000 65, ⟨List.replicate 4096 65, true⟩),
        ⟨List.replicate 4096 65, true⟩⟩ := by
    unfold printBodyUnknownLength
    dsimp only
    rw [show ((if (1000 : Int) = 0 then (maxDefaultUnknownReadable : Int)
        else 1000).toNat) = 1000 by decide]
    rw [hb]
    dsimp only
    simp only [List.length_replicate]
    rw [if_neg (by decide), if_pos (by decide)]
  have hcb : checkBodyFiltered { ResponseBody := true, MaxResponseBody := 1000 } [] =
      ([], false, none) := rfl
  have hmain : printResponseBodyOut { ResponseBody := true, MaxResponseBody := 1000 }
      { contentLength := -1, body := some ⟨List.replicate 8192 65, true⟩ } =
      ⟨[tooLongUnknownLine 1000], 4096,
        List.replicate 1000 65 ++ List.replicate 4096 65⟩ := by
    unfold printResponseBodyOut
    dsimp only
    rw [if_neg (by decide)]
    rw [hcb]
    dsimp only
    rw [if_neg (by decide), if_neg (by decide), if_pos (by decide)]
    simp only [Option.getD_some]
    rw [show headerGet [] "Content-Type" = "" from rfl, hu]
    dsimp only
    simp only [List.nil_append, List.length_replicate, newBodyReaderBuf]
  refine ⟨hmain, by simp only [List.length_replicate],
    by simp only [List.length_append, List.length_replicate], ?_⟩
  intro hcontra
  have hlen := congrArg List.length hcontra
  simp only [List.length_append, List.length_replicate] at hlen
  omega

/-- Claim C3 counterexample: a 3-byte unknown-length body (a stream that, like bytes.Reader
or strings.Reader, returns its final bytes with a nil error and reports io.EOF only on
a later call) under a 10-byte ceiling. End-of-stream is reached before the ceiling —
the bounded read leaves nothing in the stream — yet the code does not print the
captured bytes: it prints the "body is too long, skipping (contains more than 3
bytes)" diagnostic, because its case split keys on the io.EOF report of the single
read, not on whether end-of-stream was reached or the ceiling was hit. -/
theorem unknownLength_eof_keying_counterexample :
    (printBodyUnknownLength false [] "text/plain" 10 ⟨[72, 105, 33], false⟩).rest.data
        = [] ∧
    (printBodyUnknownLength false [] "text/plain" 10 ⟨[72, 105, 33], false⟩).out =
      [tooLongUnknownLine 3] ∧
    (printBodyUnknownLength false [] "text/plain" 10 ⟨[72, 105, 33], false⟩).out ≠
      printBodyReader false [] "text/plain" [72, 105, 33] := by
  refine ⟨rfl, rfl, ?_⟩
  decide

/-- Claim C3 amended: printBodyUnknownLength performs one bounded read of at most the
ceiling (4096 when none is configured), and its outcomes are keyed on that read's
io.EOF report: no bytes → nothing printed and no replacement body; bytes with io.EOF
reported → the captured bytes are printed and the replacement yields exactly them;
bytes without io.EOF (whether or not the ceiling was actually reached) → the
"too long, skipping (contains more than n bytes)" diagnostic with n the number of
bytes read, and the replacement is the captured prefix followed by the unread
remainder of the original stream. -/
theorem printBodyUnknownLength_amended (colors : Bool) (fmts : List Formatter)
    (ct : String) (maxLength : Int) (r : ByteStream) (mL : Nat)
    (hmax : 0 ≤ maxLength)
    (hmL : mL =
      (if maxLength = 0 then (maxDefaultUnknownReadable : Int) else maxLength).toNat) :
    (bufioRead r mL).1.length ≤ mL ∧
    ((bufioRead r mL).1 = [] →
      printBodyUnknownLength colors fmts ct maxLength r =
        ⟨[], none, (bufioRead r mL).2.2⟩) ∧
    ((bufioRead r mL).1 ≠ [] → (bufioRead r mL).2.1 = true →
      printBodyUnknownLength colors fmts ct maxLength r =
        ⟨printBodyReader colors fmts ct (bufioRead r mL).1,
          some ((bufioRead r mL).1, (bufioRead r mL).2.2), (bufioRead r mL).2.2⟩ ∧
      newBodyReaderBuf (bufioRead r mL).1 (bufioRead r mL).2.2 = (bufioRead r mL).1) ∧
    ((bufioRead r mL).1 ≠ [] → (bufioRead r mL).2.1 = false →
      printBodyUnknownLength colors fmts ct maxLength r =
        ⟨[tooLongUnknownLine (bufioRead r mL).1.length],
          some ((bufioRead r mL).1, (bufioRead r mL).2.2), (bufioRead r mL).2.2⟩) := by
  have hmLpos : 0 < mL := by
    rw [hmL]
    by_cases h0 : maxLength = 0
    · simp [h0, maxDefaultUnknownReadable]
    · have : 0 < maxLength := lt_of_le_of_ne hmax (Ne.symm h0)
      simp [h0]
      omega
  subst hmL
  refine ⟨bufioRead_length_le r _, ?_, ?_, ?_⟩
  · intro hnil
    obtain ⟨-, heof⟩ := bufioRead_nil_eof r _ hmLpos hnil
    unfold printBodyUnknownLength
    dsimp only
    rw [if_pos (by simp [hnil, heof])]
  · intro hne heof
    have hrest := bufioRead_eof_rest r _ hne heof
    constructor
    · unfold printBodyUnknownLength
      dsimp only
      rw [if_neg (by simp [heof, List.length_eq_zero, hne]),
        if_neg (by simp [heof])]
    · unfold newBodyReaderBuf
      rw [hrest, List.append_nil]
  · intro hne heof
    unfold printBodyUnknownLength
    dsimp only
    rw [if_neg (by simp [heof]), if_pos (by simp [heof])]

/-- Witness for the amended unknown-length theorem: a 3-byte eager stream under a
10-byte ceiling takes the EOF-with-data branch: the body is printed and the
replacement yields exactly the captured bytes. -/
theorem printBodyUnknownLength_amended_witness :
    printBodyUnknownLength false [] "text/plain" 5000 ⟨[72, 105, 33], true⟩ =
      ⟨printBodyReader false [] "text/plain" [72, 105, 33],
        some ([72, 105, 33], ⟨[], true⟩), ⟨[], true⟩⟩ := by
  have h := printBodyUnknownLength_amended false [] "text/plain" 5000
    ⟨[72, 105, 33], true⟩ 5000 (by norm_num) (by decide)
  exact (h.2.2.1 (by decide) (by decide)).1

end Httpretty
